import Mathlib

/-!
Shallow embedding of the error-response-dispatch core of the go-httpx
repository (package httperr, plus the respond wrappers that call into it).

Go `error` interface values are modelled as `Option Err` (`none` is the nil
interface value); the non-nil error values that actually occur in this
library are the constructors of the inductive type `Err`.  Writing to an
`http.ResponseWriter` is modelled by returning the written response: the
dispatcher functions return `Option HTTPResponse × Bool` — the response
written (or `none`) and the `handled` flag.
-/

namespace Httpx

/-- The non-nil Go error values occurring in the httperr package:
`basic` is an `errors.New` value, `wrap` a `fmt.Errorf` value built with
`%w` whose `msg` field is the complete formatted message and whose
`Unwrap` returns `inner`, `statusCodeAndText` the self-rendering
`httperr.New` value, `redirectErr` the `httperr.Redirect` value,
`sentinel` a well-known marker such as `os.ErrNotExist` (identified by
`id`, carrying its `Error()` text `msg`), `dontLog` the `errDontLog`
wrapper whose `Unwrap` returns the wrapped error. -/
inductive Err where
  | basic (msg : String)
  | wrap (msg : String) (inner : Err)
  | statusCodeAndText (statusCode : Nat) (statusText : String)
  | redirectErr (statusCode : Nat) (targetURL : String)
  | sentinel (id : String) (msg : String)
  | dontLog (inner : Err)
deriving DecidableEq, Repr

/-- A response written to the `http.ResponseWriter`: `text` models
`http.Error` (plain-text body with the given status), `json` models the
JSON body written by `WriteAsJSON`, and `redirect` models
`http.Redirect` (a Location header plus status, no payload body). -/
inductive HTTPResponse where
  | text (status : Nat) (body : String)
  | json (status : Nat) (body : String)
  | redirect (status : Nat) (location : String)
deriving DecidableEq, Repr

/-- Status code of a written response. -/
def HTTPResponse.statusOf : HTTPResponse → Nat
  | .text s _ => s
  | .json s _ => s
  | .redirect s _ => s

/-- Model of `http.StatusText` for the codes this library uses; the Go function
returns the empty string for unknown codes. -/
def statusText : Nat → String
  | 400 => "Bad Request"
  | 401 => "Unauthorized"
  | 402 => "Payment Required"
  | 403 => "Forbidden"
  | 404 => "Not Found"
  | 405 => "Method Not Allowed"
  | 307 => "Temporary Redirect"
  | 308 => "Permanent Redirect"
  | 500 => "Internal Server Error"
  | _ => ""

/-- Model of `http.Error(writer, msg, code)`: writes a plain-text response whose
body is the message followed by a newline (`fmt.Fprintln`). -/
def httpError (msg : String) (code : Nat) : HTTPResponse :=
  HTTPResponse.text code (msg ++ "\n")

/-- The `Error()` method of each error value.  `errDontLog` embeds the
`error` interface, so its promoted `Error()` is the wrapped error's;
`errWithStatus.Error` falls back to the standard status text when no
text was given; `redirect.Error` formats "%d redirect to %s". -/
def errorMessage : Err → String
  | .basic m => m
  | .wrap m _ => m
  | .statusCodeAndText c t => if t = "" then statusText c else t
  | .redirectErr c u => toString c ++ " redirect to " ++ u
  | .sentinel _ m => m
  | .dontLog inner => errorMessage inner

/-- Which dynamic error types implement `http.Handler`: only
`errWithStatus`/`statusCodeAndText` and `redirect` declare `ServeHTTP`.
`errDontLog` embeds only the `error` interface, so it does not. -/
def implementsHTTPHandler : Err → Bool
  | .statusCodeAndText _ _ => true
  | .redirectErr _ _ => true
  | _ => false

/-- The `Unwrap() error` method: defined only on `fmt.Errorf`-with-`%w`
values and on `errDontLog`. -/
def unwrapOnce : Err → Option Err
  | .wrap _ inner => some inner
  | .dontLog inner => some inner
  | _ => none

/-- Model of `errors.As(err, &handler)` with an `http.Handler` target: walks the
unwrap chain and returns the first element whose dynamic type implements
`http.Handler`, or `none` when the chain is exhausted. -/
def asHTTPHandler : Err → Option Err
  | .statusCodeAndText c t => some (.statusCodeAndText c t)
  | .redirectErr c u => some (.redirectErr c u)
  | .wrap _ inner => asHTTPHandler inner
  | .dontLog inner => asHTTPHandler inner
  | .basic _ => none
  | .sentinel _ _ => none

/-- Go interface equality `err == target` as used by `errors.Is` in
`WriteHandler`, where the target is always a sentinel key of the
`SentinelHandlers` map.  Sentinels are distinct allocated values
compared by identity, modelled by their `id`; every non-sentinel
comparison with a sentinel target is false (distinct allocations). -/
def sameErrValue : Err → Err → Bool
  | .sentinel a _, .sentinel b _ => a == b
  | _, _ => false

/-- Model of `errors.Is(err, target)`: compares each element of the unwrap chain
with the target. -/
def errorsIs (target : Err) : Err → Bool
  | .wrap m inner => sameErrValue (.wrap m inner) target || errorsIs target inner
  | .dontLog inner => sameErrValue (.dontLog inner) target || errorsIs target inner
  | e => sameErrValue e target

/-- Model of `errors.As(err, &dontLog)` with concrete target type `errDontLog`:
true when some element of the unwrap chain has dynamic type
`errDontLog`. -/
def asDontLog : Err → Bool
  | .dontLog _ => true
  | .wrap _ inner => asDontLog inner
  | _ => false

/-- The unwrap chain of an error, outermost first, as walked by
`errors.Is` and `errors.As`. -/
def chainOf : Err → List Err
  | .wrap m inner => .wrap m inner :: chainOf inner
  | .dontLog inner => .dontLog inner :: chainOf inner
  | e => [e]

/-- The `ServeHTTP` method of the error values implementing
`http.Handler`: `errWithStatus` calls `http.Error` with its text and
status code, `redirect` calls `http.Redirect`.  The catch-all line is
never reached through `WriteHandler` (it only invokes `ServeHTTP` on
values for which `implementsHTTPHandler` holds). -/
def serveHTTP : Err → HTTPResponse
  | .statusCodeAndText c t => httpError (if t = "" then statusText c else t) c
  | .redirectErr c u => HTTPResponse.redirect c u
  | e => httpError (errorMessage e) 500

/-- Marker `os.ErrNotExist`: the "resource does not exist" marker. -/
def osErrNotExist : Err := .sentinel "os.ErrNotExist" "file does not exist"

/-- Marker `sql.ErrNoRows`: the "no matching record" marker. -/
def sqlErrNoRows : Err := .sentinel "sql.ErrNoRows" "sql: no rows in result set"

/-- The default `SentinelHandlers` table from config.go, mapping
`os.ErrNotExist` and `sql.ErrNoRows` to handlers that write 404
responses via `http.Error`.  The Go table is a map with unspecified
iteration order over its two entries; the embedding fixes one order. -/
def SentinelHandlers : List (Err × HTTPResponse) :=
  [(osErrNotExist, httpError "Requested file not found" 404),
   (sqlErrNoRows, httpError "Requested database row not found" 404)]

/-- The Go zero value of the package variable
`DebugShowInternalErrorsInResponse`: the flag defaults to off. -/
def DebugShowInternalErrorsInResponseDefault : Bool := false

/-- Model of `WriteInternalServerError(err, writer)` from handler.go: the message
is the 500 status text, extended by the format "\n%+v" applied to the
error (its `Error()` text for the error values of this model) when the
debug flag is set, then written with `http.Error` at status 500. -/
def WriteInternalServerError (debugShow : Bool) (errText : String) : HTTPResponse :=
  httpError (if debugShow then statusText 500 ++ "\n" ++ errText else statusText 500) 500

/-- Model of `WriteHandler(err, writer, request)` from handler.go: nil returns
false with no write; otherwise `errors.As` for an `http.Handler` in the
chain and, failing that, an `errors.Is` scan of `SentinelHandlers`; the
first hit has its `ServeHTTP` invoked. -/
def WriteHandler (err : Option Err) : Option HTTPResponse × Bool :=
  match err with
  | none => (none, false)
  | some e =>
    match asHTTPHandler e with
    | some h => (some (serveHTTP h), true)
    | none =>
      match SentinelHandlers.find? (fun p => errorsIs p.1 e) with
      | some p => (some p.2, true)
      | none => (none, false)

/-- Model of `DefaultHandlerImpl(err, writer, request)` from handler.go: nil
returns false; otherwise `WriteHandler`, falling back to
`WriteInternalServerError` (applied to "%+v" of the error, its
`Error()` text here), and returns true. -/
def DefaultHandlerImpl (debugShow : Bool) (err : Option Err) :
    Option HTTPResponse × Bool :=
  match err with
  | none => (none, false)
  | some e =>
    match WriteHandler (some e) with
    | (w, true) => (w, true)
    | (_, false) => (some (WriteInternalServerError debugShow (errorMessage e)), true)

/-- Model of `Handle(err, writer, request)` from handler.go: nil returns false,
otherwise it defers to `DefaultHandler`, which config.go sets to
`HandlerFunc(DefaultHandlerImpl)`. -/
def Handle (debugShow : Bool) (err : Option Err) : Option HTTPResponse × Bool :=
  match err with
  | none => (none, false)
  | some e => DefaultHandlerImpl debugShow (some e)

/-- An arbitrary Go `interface\x7b\x7d` value as received from
`recover()`: nil, an error, a string, a `fmt.Stringer` (modelled by the
text its `String()` method returns), or any other value (modelled by its
"%+v" formatting). -/
inductive GoValue where
  | nil
  | err (e : Err)
  | str (s : String)
  | stringer (text : String)
  | other (formatted : String)
deriving DecidableEq, Repr

/-- Model of `AsError(val)` from wrap.go: nil stays nil, errors pass through,
strings become `errors.New` values, `fmt.Stringer`s become
`errors.New` of their `String()` text, anything else becomes
`fmt.Errorf("%+v", val)`, which without a `%w` verb is a plain
(non-wrapping) error value. -/
def AsError : GoValue → Option Err
  | .nil => none
  | .err e => some e
  | .str s => some (.basic s)
  | .stringer t => some (.basic t)
  | .other f => some (.basic f)

/-- Model of `HandlePanic(recoverResult, writer, request)` from handler.go:
`Handle(AsError(recoverResult), writer, request)`. -/
def HandlePanic (debugShow : Bool) (recoverResult : GoValue) :
    Option HTTPResponse × Bool :=
  Handle debugShow (AsError recoverResult)

/-- Model of `DontLog(err)` from wrap.go (part_014 revision): nil is returned as
nil, otherwise the error is wrapped in `errDontLog`. -/
def DontLog : Option Err → Option Err
  | none => none
  | some e => some (.dontLog e)

/-- Model of `ShouldLog(err)` from wrap.go (part_014 revision): false for nil,
otherwise the negation of `errors.As(err, &errDontLog)`. -/
def ShouldLog : Option Err → Bool
  | none => false
  | some e => !asDontLog e

/-- An arbitrary value passed to `WriteAsJSON`, abstracting
`encoding/json`: its "%+v" formatting, the result of
`json.MarshalIndent` (`none` models a marshalling failure), and the
`Error()` text of the marshalling error in the failure case. -/
structure JSONValue where
  formatted : String
  marshalled : Option String
  marshalErrMsg : String
deriving DecidableEq, Repr

/-- Model of `WriteAsJSON(err, statusCode, writer)` from httperr.go: on
marshalling success write the body as application/json with the given
status; on failure wrap the marshal error with context
(`fmt.Errorf` with `%w`) and fall back to `WriteInternalServerError`. -/
def WriteAsJSON (debugShow : Bool) (v : JSONValue) (statusCode : Nat) : HTTPResponse :=
  match v.marshalled with
  | some body => HTTPResponse.json statusCode body
  | none =>
    WriteInternalServerError debugShow
      ("error while marshalling error value " ++ v.formatted ++ " as JSON: "
        ++ v.marshalErrMsg)

/-- One step of the chain walk performed by `errors.As`/`errors.Is` over
an arbitrary (possibly cyclic) unwrap graph: nodes are numbered,
`isMatch` is the per-node match test, `unw` the `Unwrap` edge.  The Go
loop has no fuel bound; `none` means the walk had not produced a result
within the given fuel. -/
def chainFind (isMatch : Nat → Bool) (unw : Nat → Option Nat) :
    Nat → Nat → Option Bool
  | 0, _ => none
  | fuel + 1, node =>
    if isMatch node then some true
    else
      match unw node with
      | some next => chainFind isMatch unw fuel next
      | none => some false

/-- The unbounded Go chain walk diverges from `start`: no amount of fuel
yields a result. -/
def chainFindDiverges (isMatch : Nat → Bool) (unw : Nat → Option Nat)
    (start : Nat) : Prop :=
  ∀ fuel, chainFind isMatch unw fuel start = none

/-- Status code carried by a self-rendering error value. -/
def handlerStatusCode : Err → Nat
  | .statusCodeAndText c _ => c
  | .redirectErr c _ => c
  | _ => 0

/-- Whether a chain element is the `errDontLog` wrapper. -/
def isDontLogNode : Err → Bool
  | .dontLog _ => true
  | _ => false

/-- The error has been wrapped with `DontLog` somewhere in its unwrap
chain. -/
def wrappedWithDontLog (e : Err) : Bool :=
  (chainOf e).any isDontLogNode

/-- The handler value returned by the `errors.As` walk always has a
dynamic type implementing `http.Handler`. -/
theorem asHTTPHandler_implements (e h : Err) (hh : asHTTPHandler e = some h) :
    implementsHTTPHandler h = true := by
  induction e with
  | basic m => simp [asHTTPHandler] at hh
  | wrap m inner ih => exact ih (by simpa [asHTTPHandler] using hh)
  | statusCodeAndText c t =>
    simp [asHTTPHandler] at hh
    simp [← hh, implementsHTTPHandler]
  | redirectErr c u =>
    simp [asHTTPHandler] at hh
    simp [← hh, implementsHTTPHandler]
  | sentinel i m => simp [asHTTPHandler] at hh
  | dontLog inner ih => exact ih (by simpa [asHTTPHandler] using hh)

/-- Rendering a self-rendering error writes a response whose status is
the status code the error carries. -/
theorem serveHTTP_status (h : Err) (hi : implementsHTTPHandler h = true) :
    (serveHTTP h).statusOf = handlerStatusCode h := by
  cases h <;> simp_all [implementsHTTPHandler, serveHTTP, httpError,
    HTTPResponse.statusOf, handlerStatusCode]

/-- Lemma: `WriteHandler` either writes one response and reports true, or
writes nothing and reports false. -/
theorem writeHandler_cases (e : Err) :
    (∃ r, WriteHandler (some e) = (some r, true)) ∨
    WriteHandler (some e) = (none, false) := by
  cases hA : asHTTPHandler e with
  | some h => exact Or.inl ⟨serveHTTP h, by simp [WriteHandler, hA]⟩
  | none =>
    cases hF : SentinelHandlers.find? (fun p => errorsIs p.1 e) with
    | some p => exact Or.inl ⟨p.2, by simp [WriteHandler, hA, hF]⟩
    | none => exact Or.inr (by simp [WriteHandler, hA, hF])

/-- On every non-nil error, `DefaultHandlerImpl` writes exactly one
response and returns true. -/
theorem defaultHandlerImpl_total (ds : Bool) (e : Err) :
    ∃ r, DefaultHandlerImpl ds (some e) = (some r, true) := by
  rcases writeHandler_cases e with ⟨r, hr⟩ | hr
  · exact ⟨r, by simp [DefaultHandlerImpl, hr]⟩
  · exact ⟨WriteInternalServerError ds (errorMessage e),
      by simp [DefaultHandlerImpl, hr]⟩

/-- The `errors.As` check and the `errors.Is` scan both see through the
`errDontLog` wrapper, and its promoted `Error()` method is the wrapped
error's, so both dispatch entry points treat the wrapped and the
unwrapped error identically. -/
theorem writeHandler_dontLog (e : Err) :
    WriteHandler (some (Err.dontLog e)) = WriteHandler (some e) := by
  have hpred : (fun p : Err × HTTPResponse => errorsIs p.1 (Err.dontLog e))
      = fun p : Err × HTTPResponse => errorsIs p.1 e := by
    funext p
    simp [errorsIs, sameErrValue]
  simp only [WriteHandler, asHTTPHandler, hpred]

/-- Claim C1: for every non-nil error whose unwrap chain contains a
value implementing error-plus-`http.Handler`, dispatch invokes that
value's `ServeHTTP`, writes a response with the value's status code,
and returns true; in particular a redirect response with target
"/login" and code 307 makes the sink receive a redirect instruction to
"/login" with status 307, not a body. -/
theorem dispatch_self_rendering (ds : Bool) (e h : Err)
    (hh : asHTTPHandler e = some h) :
    Handle ds (some e) = (some (serveHTTP h), true) ∧
    (serveHTTP h).statusOf = handlerStatusCode h ∧
    Handle ds (some (Err.redirectErr 307 "/login")) =
      (some (HTTPResponse.redirect 307 "/login"), true) := by
  refine ⟨?_, serveHTTP_status h (asHTTPHandler_implements e h hh), rfl⟩
  simp [Handle, DefaultHandlerImpl, WriteHandler, hh]

/-- Witness for C1 at the concrete error `Redirect(307, "/login")`
wrapped once with `fmt.Errorf`. -/
theorem dispatch_self_rendering_witness :
    asHTTPHandler (Err.wrap "request failed: 307 redirect to /login"
        (Err.redirectErr 307 "/login")) = some (Err.redirectErr 307 "/login") ∧
    Handle false (some (Err.wrap "request failed: 307 redirect to /login"
        (Err.redirectErr 307 "/login"))) =
      (some (HTTPResponse.redirect 307 "/login"), true) :=
  ⟨rfl, (dispatch_self_rendering false
      (Err.wrap "request failed: 307 redirect to /login"
        (Err.redirectErr 307 "/login"))
      (Err.redirectErr 307 "/login") rfl).1⟩

/-- Claim C2: an error wrapping a registered sentinel (and whose chain
contains no `http.Handler`) is rendered by the sentinel's registered
handler rather than the generic 500: wrapping `os.ErrNotExist` — even
three layers deep — yields 404 "Requested file not found", and wrapping
`sql.ErrNoRows` yields 404 "Requested database row not found" (the Go
table is a map with unspecified iteration order; the embedding fixes
the order `os.ErrNotExist` first, so the `sql.ErrNoRows` part carries
the hypothesis that `os.ErrNotExist` is not also wrapped). -/
theorem dispatch_sentinel (ds : Bool) (e : Err)
    (hnh : asHTTPHandler e = none) :
    (errorsIs osErrNotExist e = true →
      Handle ds (some e) =
        (some (httpError "Requested file not found" 404), true)) ∧
    (errorsIs sqlErrNoRows e = true → errorsIs osErrNotExist e = false →
      Handle ds (some e) =
        (some (httpError "Requested database row not found" 404), true)) ∧
    Handle ds (some (Err.wrap "a" (Err.wrap "b" (Err.wrap "c" osErrNotExist)))) =
      (some (httpError "Requested file not found" 404), true) := by
  refine ⟨?_, ?_, rfl⟩
  · intro h1
    simp [Handle, DefaultHandlerImpl, WriteHandler, hnh, SentinelHandlers,
      List.find?, h1]
  · intro h2 h1
    simp [Handle, DefaultHandlerImpl, WriteHandler, hnh, SentinelHandlers,
      List.find?, h1, h2]

/-- Witness for C2 at the concrete error wrapping `os.ErrNotExist`
once. -/
theorem dispatch_sentinel_witness :
    Handle false (some (Err.wrap "open config: file does not exist" osErrNotExist)) =
      (some (httpError "Requested file not found" 404), true) :=
  (dispatch_sentinel false
      (Err.wrap "open config: file does not exist" osErrNotExist) rfl).1 rfl

/-- Claim C3: an error that neither self-renders nor matches a
registered sentinel is handled (true is returned) with a 500 response;
its body is the standard status text extended by the error's detail
text exactly when the debug flag is set, and the flag's Go zero value
is off. -/
theorem dispatch_opaque_500 (ds : Bool) (e : Err)
    (hnh : asHTTPHandler e = none)
    (h1 : errorsIs osErrNotExist e = false)
    (h2 : errorsIs sqlErrNoRows e = false) :
    Handle ds (some e) =
      (some (httpError
        (if ds then statusText 500 ++ "\n" ++ errorMessage e
         else statusText 500) 500), true) ∧
    DebugShowInternalErrorsInResponseDefault = false := by
  refine ⟨?_, rfl⟩
  simp [Handle, DefaultHandlerImpl, WriteHandler, WriteInternalServerError,
    hnh, SentinelHandlers, List.find?, h1, h2]

/-- Witness for C3 at the concrete opaque error "boom" with the debug
flag enabled. -/
theorem dispatch_opaque_500_witness :
    Handle true (some (Err.basic "boom")) =
      (some (httpError (statusText 500 ++ "\n" ++ errorMessage (Err.basic "boom"))
        500), true) ∧
    DebugShowInternalErrorsInResponseDefault = false := by
  have h := dispatch_opaque_500 true (Err.basic "boom") rfl rfl rfl
  simpa using h

/-- Claim C4: dispatching a nil error writes nothing and returns false,
for both `Handle` and `DefaultHandlerImpl`, and this is the only path
of dispatch producing no write: on every non-nil error both write a
response and return true. -/
theorem dispatch_nil_noop (ds : Bool) :
    Handle ds none = (none, false) ∧
    DefaultHandlerImpl ds none = (none, false) ∧
    ∀ e : Err, (∃ r, Handle ds (some e) = (some r, true)) ∧
      ∃ r, DefaultHandlerImpl ds (some e) = (some r, true) := by
  refine ⟨rfl, rfl, fun e => ?_⟩
  obtain ⟨r, hr⟩ := defaultHandlerImpl_total ds e
  exact ⟨⟨r, hr⟩, ⟨r, hr⟩⟩

/-- Claim C5 (amended): for every error value with a finite (acyclic)
unwrap chain — all values of the inductive `Err` — the dispatch
decision procedure reaches a result: a response is written and true is
returned, the generic fallback guaranteeing the result.  On a cyclic
`Unwrap` chain the unbounded chain walk of `errors.As`/`errors.Is`
that `WriteHandler` performs does not terminate, so the unrestricted
claim fails (see the counterexample theorem). -/
theorem dispatch_terminates_finite_chain (ds : Bool) (e : Err) :
    ∃ r, Handle ds (some e) = (some r, true) :=
  defaultHandlerImpl_total ds e

/-- Counterexample to C5 as stated: a one-node cyclic unwrap graph
(`Unwrap` returns the error itself) on which the chain walk modelled by
`chainFind` never produces a result, for any amount of fuel — the Go
loop inside `errors.As`/`errors.Is`, which has no depth bound, spins
forever, so dispatch does not terminate on a cyclic wrap chain. -/
theorem dispatch_cyclic_chain_diverges :
    chainFindDiverges (fun _ => false) (fun _ => some 0) 0 := by
  intro fuel
  induction fuel with
  | zero => rfl
  | succ n ih => simpa [chainFind] using ih

/-- Witness for C5's amended theorem at the concrete opaque error
"x". -/
theorem dispatch_terminates_finite_chain_witness :
    ∃ r, Handle false (some (Err.basic "x")) = (some r, true) :=
  dispatch_terminates_finite_chain false (Err.basic "x")

/-- Claim C6: `HandlePanic` normalizes the recovered panic payload with
`AsError` — nil stays nil, an error passes through unchanged, a string
becomes an error with that message, a `fmt.Stringer` becomes an error
carrying its `String()` text, any other value is formatted generically —
and forwards the result to `Handle`. -/
theorem handlePanic_normalizes (ds : Bool) :
    AsError GoValue.nil = none ∧
    (∀ e, AsError (GoValue.err e) = some e) ∧
    (∀ s, AsError (GoValue.str s) = some (Err.basic s)) ∧
    (∀ t, AsError (GoValue.stringer t) = some (Err.basic t)) ∧
    (∀ f, AsError (GoValue.other f) = some (Err.basic f)) ∧
    ∀ v, HandlePanic ds v = Handle ds (AsError v) :=
  ⟨rfl, fun _ => rfl, fun _ => rfl, fun _ => rfl, fun _ => rfl, fun _ => rfl⟩

/-- Lemma: `errors.As` with target type `errDontLog` finds a match exactly when
the unwrap chain contains an `errDontLog` node. -/
theorem asDontLog_eq_wrappedWithDontLog (e : Err) :
    asDontLog e = wrappedWithDontLog e := by
  induction e with
  | basic m => rfl
  | wrap m inner ih =>
    simp [asDontLog, wrappedWithDontLog, chainOf, isDontLogNode] at ih ⊢
    exact ih
  | statusCodeAndText c t => rfl
  | redirectErr c u => rfl
  | sentinel i m => rfl
  | dontLog inner ih => simp [asDontLog, wrappedWithDontLog, chainOf, isDontLogNode]

/-- Claim C7: `ShouldLog (DontLog E)` is false for every error E
(including the nil case), and `ShouldLog E` is true for every non-nil
error E not wrapped with `DontLog` anywhere in its unwrap chain —
self-rendering and sentinel errors included. -/
theorem shouldLog_spec (oe : Option Err) (e : Err)
    (h : wrappedWithDontLog e = false) :
    ShouldLog (DontLog oe) = false ∧ ShouldLog (some e) = true := by
  constructor
  · cases oe with
    | none => rfl
    | some x => rfl
  · simp [ShouldLog, asDontLog_eq_wrappedWithDontLog, h]

/-- Witness for C7 at the self-rendering error `BadRequest`
(`httperr.New(400)`) and, for the first half, the opaque error "x". -/
theorem shouldLog_spec_witness :
    ShouldLog (DontLog (some (Err.basic "x"))) = false ∧
    ShouldLog (some (Err.statusCodeAndText 400 "")) = true :=
  shouldLog_spec (some (Err.basic "x")) (Err.statusCodeAndText 400 "") rfl

/-- Claim C8: wrapping an error with `DontLog` does not change its
rendering — both dispatch entry points write the same response with the
same handled result for the wrapped and the unwrapped error, because
the unwrap chain walks see through `errDontLog` transparently. -/
theorem dontLog_rendering_transparent (ds : Bool) (e : Err) :
    Handle ds (DontLog (some e)) = Handle ds (some e) ∧
    DefaultHandlerImpl ds (some (Err.dontLog e)) = DefaultHandlerImpl ds (some e) := by
  have hW := writeHandler_dontLog e
  have hD : DefaultHandlerImpl ds (some (Err.dontLog e))
      = DefaultHandlerImpl ds (some e) := by
    simp only [DefaultHandlerImpl, hW, errorMessage]
  exact ⟨hD, hD⟩

/-- Claim C9: when `json.MarshalIndent` fails, `WriteAsJSON` falls back
to `WriteInternalServerError` with a wrapped description of the
serialization failure, and that fallback never fails or recurses: for
every input it writes one plain-text response with status 500. -/
theorem writeAsJSON_fallback (ds : Bool) (v : JSONValue) (code : Nat)
    (h : v.marshalled = none) :
    WriteAsJSON ds v code =
      WriteInternalServerError ds
        ("error while marshalling error value " ++ v.formatted ++ " as JSON: "
          ++ v.marshalErrMsg) ∧
    ∀ (d : Bool) (msg : String), ∃ body,
      WriteInternalServerError d msg = HTTPResponse.text 500 body := by
  refine ⟨?_, fun d msg => ⟨_, rfl⟩⟩
  simp [WriteAsJSON, h]

/-- Witness for C9 at a concrete unmarshallable value. -/
theorem writeAsJSON_fallback_witness :
    WriteAsJSON false ⟨"chan int", none, "json: unsupported type: chan int"⟩ 422 =
      WriteInternalServerError false
        ("error while marshalling error value " ++ "chan int" ++ " as JSON: "
          ++ "json: unsupported type: chan int") :=
  (writeAsJSON_fallback false ⟨"chan int", none, "json: unsupported type: chan int"⟩
    422 rfl).1

/-- Claim C10: a nil recovered panic value makes `HandlePanic` write
nothing and return false, because `AsError` maps nil to nil and nil
dispatch is a no-op — so the deferred `HandlePanic(recover(), ...)`
never alters the response of a handler that did not panic. -/
theorem handlePanic_nil_noop (ds : Bool) :
    HandlePanic ds GoValue.nil = (none, false) ∧
    AsError GoValue.nil = none ∧
    Handle ds (AsError GoValue.nil) = (none, false) :=
  ⟨rfl, rfl, rfl⟩

end Httpx
